import Mathlib

namespace Happle

/-! Shallow embedding of the happle-reservation backend
(backend/app.py and backend/hacomono_client.py).

Datetimes are modelled as integer seconds; upstream HTTP calls are
modelled as explicit Except-valued inputs supplied to each function;
the SHA-256 hex-digest primitive from hashlib is treated as a function
parameter, because every claim about the verification token depends
only on the normalisation, salting and truncation that the source
wraps around it. -/

/-! Verification token (app.py 840-880).  Python strings are modelled
as lists of characters so that every operation is structural: the
str.lower, str.strip and single-character str.replace used by the
source become map, dropWhile and filter over the character list. -/

/-- str.lower (app.py 857). -/
def pyLower (s : List Char) : List Char := s.map Char.toLower

/-- str.strip (app.py 857-858): drop whitespace from both ends. -/
def pyStrip (s : List Char) : List Char :=
  ((s.dropWhile Char.isWhitespace).reverse.dropWhile Char.isWhitespace).reverse

/-- str.replace with a one-character pattern and empty replacement
(app.py 858): remove every occurrence of the character. -/
def pyRemoveAll (c : Char) (s : List Char) : List Char :=
  s.filter (fun x => x ≠ c)

/-- VERIFICATION_SALT (app.py 843), the default value used when the
environment variable is unset. -/
def VERIFICATION_SALT : List Char := "happle-reservation-secret-salt-2024".data

/-- Email normalisation inside generate_verification_hash
(app.py 857): lowercase, then strip. -/
def normalize_email (email : List Char) : List Char := pyStrip (pyLower email)

/-- Phone normalisation inside generate_verification_hash
(app.py 858): remove hyphens and spaces, then strip. -/
def normalize_phone (phone : List Char) : List Char :=
  pyStrip (pyRemoveAll ' ' (pyRemoveAll '-' phone))

/-- generate_verification_hash (app.py 846-865).  The sha256hex
parameter stands for hashlib.sha256(...).hexdigest(); the source keeps
the first 16 characters of the digest. -/
def generate_verification_hash (sha256hex : List Char → List Char)
    (email phone : List Char) : List Char :=
  let data :=
    normalize_email email ++ [':'] ++ normalize_phone phone ++ [':'] ++ VERIFICATION_SALT
  (sha256hex data).take 16

/-- verify_hash (app.py 868-880): recompute the expected token and
compare with the provided one. -/
def verify_hash (sha256hex : List Char → List Char)
    (email phone provided_hash : List Char) : Bool :=
  generate_verification_hash sha256hex email phone == provided_hash

/-! Reservation datetime validation (app.py 883-911). -/

/-- RESERVATION_MIN_MINUTES_AHEAD (app.py 886), default 30. -/
def RESERVATION_MIN_MINUTES_AHEAD : Int := 30

/-- RESERVATION_MAX_DAYS_AHEAD (app.py 887), default 14. -/
def RESERVATION_MAX_DAYS_AHEAD : Int := 14

/-- Message returned when the requested start is before the minimum
lead time (app.py 904). -/
def minLeadViolationMessage : String :=
  s!"予約は{RESERVATION_MIN_MINUTES_AHEAD}分後以降の時間を選択してください"

/-- Message returned when the requested start is beyond the maximum
horizon (app.py 909). -/
def maxHorizonViolationMessage : String :=
  s!"予約は{RESERVATION_MAX_DAYS_AHEAD}日後までの日付を選択してください"

/-- validate_reservation_datetime (app.py 890-911), with datetimes as
integer seconds: timedelta(minutes=m) is m*60 seconds and
timedelta(days=d) is d*86400 seconds. -/
def validate_reservation_datetime (now reservation_datetime : Int) :
    Bool × String :=
  let min_datetime := now + RESERVATION_MIN_MINUTES_AHEAD * 60
  let max_datetime := now + RESERVATION_MAX_DAYS_AHEAD * 86400
  if reservation_datetime < min_datetime then
    (false, minLeadViolationMessage)
  else if reservation_datetime > max_datetime then
    (false, maxHorizonViolationMessage)
  else
    (true, "")

/-- C5: reservation-datetime validation accepts a start exactly at
now + 30 minutes and exactly at now + 14 days, rejects any start
strictly earlier than the minimum lead time with the message naming
the 30-minute bound, and rejects any start strictly later than the
maximum horizon with the message naming the 14-day bound. -/
theorem C5_theorem (now t : Int) :
    validate_reservation_datetime now (now + 30 * 60) = (true, "")
    ∧ validate_reservation_datetime now (now + 14 * 86400) = (true, "")
    ∧ (t < now + 30 * 60 →
        validate_reservation_datetime now t = (false, minLeadViolationMessage))
    ∧ (now + 14 * 86400 < t →
        validate_reservation_datetime now t = (false, maxHorizonViolationMessage))
    ∧ minLeadViolationMessage = "予約は30分後以降の時間を選択してください"
    ∧ maxHorizonViolationMessage = "予約は14日後までの日付を選択してください" := by
  refine ⟨?_, ?_, ?_, ?_, ?_, ?_⟩
  · simp only [validate_reservation_datetime, RESERVATION_MIN_MINUTES_AHEAD,
      RESERVATION_MAX_DAYS_AHEAD]
    rw [if_neg (by omega), if_neg (by omega)]
  · simp only [validate_reservation_datetime, RESERVATION_MIN_MINUTES_AHEAD,
      RESERVATION_MAX_DAYS_AHEAD]
    rw [if_neg (by omega), if_neg (by omega)]
  · intro h
    simp only [validate_reservation_datetime, RESERVATION_MIN_MINUTES_AHEAD,
      RESERVATION_MAX_DAYS_AHEAD]
    rw [if_pos (by omega)]
  · intro h
    simp only [validate_reservation_datetime, RESERVATION_MIN_MINUTES_AHEAD,
      RESERVATION_MAX_DAYS_AHEAD]
    rw [if_neg (by omega), if_pos (by omega)]
  · decide
  · decide

/-- C5 witness: concrete instances of the boundary behaviour at
now = 0, with 1799 one second inside the lead time and 1209601 one
second beyond the 14-day horizon. -/
theorem C5_witness :
    validate_reservation_datetime 0 (0 + 30 * 60) = (true, "")
    ∧ validate_reservation_datetime 0 1799 = (false, minLeadViolationMessage)
    ∧ validate_reservation_datetime 0 1209601 = (false, maxHorizonViolationMessage) := by
  refine ⟨(C5_theorem 0 0).1, ?_, ?_⟩
  · exact (C5_theorem 0 1799).2.2.1 (by decide)
  · exact (C5_theorem 0 1209601).2.2.2.1 (by decide)

/-- C6 counterexample: the claim says verify returns false for any
token generated from a different phone, but for phone strings that
differ only by hyphens the normalisation collapses them before
hashing, so a token generated from the other string still verifies
(shown with an explicit digest function). -/
theorem C6_counterexample :
    "090-1234-5678".data ≠ "09012345678".data
    ∧ verify_hash (fun s => s) "a@b.com".data "090-1234-5678".data
        (generate_verification_hash (fun s => s) "a@b.com".data "09012345678".data)
      = true := by
  exact ⟨by decide, by decide⟩

/-- C6 (amended): the round trip verify(email, phone,
generate(email, phone)) holds for every email and phone; verify
accepts exactly the tokens equal to the one generated from the given
pair; and a token generated from a different email or phone still
verifies whenever the two inputs normalise identically (for example
differing only in case, spaces or hyphens), so the rejection guarantee
holds only for inputs with distinct normalised forms and distinct
truncated digests. -/
theorem C6_theorem (h : List Char → List Char) (e1 e2 p1 p2 t : List Char) :
    verify_hash h e1 p1 (generate_verification_hash h e1 p1) = true
    ∧ (verify_hash h e1 p1 t = true ↔ generate_verification_hash h e1 p1 = t)
    ∧ (normalize_email e1 = normalize_email e2 →
        normalize_phone p1 = normalize_phone p2 →
        verify_hash h e1 p1 (generate_verification_hash h e2 p2) = true) := by
  refine ⟨?_, ?_, ?_⟩
  · simp [verify_hash]
  · simp [verify_hash]
  · intro he hp
    simp [verify_hash, generate_verification_hash, he, hp]

/-- C6 witness: the round trip and the normalisation-collision case at
concrete inputs, using an explicit digest function. -/
theorem C6_witness :
    verify_hash (fun s => s) "A@b.com ".data "090 1234".data
      (generate_verification_hash (fun s => s) "a@b.com".data "0901234".data) = true := by
  exact (C6_theorem (fun s => s) "A@b.com ".data "a@b.com".data "090 1234".data
    "0901234".data []).2.2 (by decide) (by decide)

/-! Fixed-slot seat assignment (app.py 2971-3095, the seat-resolution
part of create_reservation). -/

/-- One entry of space_details for a studio-room space (app.py
2993-2998): the seat number no and the fallback label no_label. -/
structure SpaceDetail where
  no : Option Int
  no_label : Option String
deriving Repr, DecidableEq

/-- One reservation returned for the lesson (app.py 3006-3012):
its lifecycle status and seat number. -/
structure LessonReservation where
  status : Int
  no : Option Int
deriving Repr, DecidableEq

/-- all_seats (app.py 2992-2998): the numbered seats of the space, in
space_details listing order. -/
def allSeats (details : List SpaceDetail) : List Int :=
  details.filterMap (fun d => d.no)

/-- reserved_seats (app.py 3002-3012): seat numbers of reservations
with status 2 (confirmed) or 3 (completed) and a truthy seat value. -/
def reservedSeats (reservations : List LessonReservation) : List Int :=
  reservations.filterMap (fun r =>
    if r.status == 2 || r.status == 3 then
      match r.no with
      | some n => if n ≠ 0 then some n else none
      | none => none
    else none)

/-- available_seats (app.py 3018): seats of the space not in the
reserved set, in listing order. -/
def availableSeats (details : List SpaceDetail)
    (reservations : List LessonReservation) : List Int :=
  (allSeats details).filter (fun s => !((reservedSeats reservations).contains s))

/-- The no_label fallback (app.py 3043-3050): the first truthy
no_label among the space details. -/
def noLabelFallback (details : List SpaceDetail) : Option String :=
  (details.filterMap (fun d =>
    match d.no_label with
    | some l => if l ≠ "" then some l else none
    | none => none)).head?

/-- Outcome of the seat-resolution phase of create_reservation:
either the flow reaches the commit with a seat value, or it returns
the RSV_000008 seat-full error (app.py 3036-3041), or the
SPACE_NO_MISSING error (app.py 3067-3088). -/
inductive SeatOutcome where
  | commit (no : String)
  | seatFull
  | spaceNoMissing
deriving Repr, DecidableEq

/-- Seat resolution of create_reservation (app.py 2992-3095): build
the seat list, return seat-full when the space has seats but none is
free, otherwise take str of the first free seat (or the no_label
fallback, which leaves space_has_valid_no false); a truthy space_no in
the request body then overrides the computed value and marks it valid
(app.py 3056-3059); finally a falsy or invalid seat value yields
SPACE_NO_MISSING and anything else reaches the commit. -/
def resolveSpaceNo (details : List SpaceDetail)
    (reservations : List LessonReservation)
    (requestSpaceNo : Option String) : SeatOutcome :=
  let all_seats := allSeats details
  let available := availableSeats details reservations
  if !all_seats.isEmpty && available.isEmpty then
    .seatFull
  else
    let space_has_valid_no := !all_seats.isEmpty
    let space_no0 : Option String :=
      if !all_seats.isEmpty then (available.head?).map toString
      else noLabelFallback details
    let step :=
      match requestSpaceNo with
      | some s => if s ≠ "" then (some s, true) else (space_no0, space_has_valid_no)
      | none => (space_no0, space_has_valid_no)
    match step.1 with
    | none => .spaceNoMissing
    | some s => if s == "" || !step.2 then .spaceNoMissing else .commit s

/-- Helper: Nat.toDigitsCore never shortens its accumulator. -/
theorem toDigitsCore_length_le (b : Nat) :
    ∀ (f n : Nat) (ds : List Char), ds.length ≤ (Nat.toDigitsCore b f n ds).length := by
  intro f
  induction f with
  | zero => intro n ds; simp [Nat.toDigitsCore]
  | succ f ih =>
    intro n ds
    simp only [Nat.toDigitsCore]
    split
    · simp
    · exact le_trans (by simp) (ih (n / b) (Nat.digitChar (n % b) :: ds))

/-- Helper: Nat.toDigitsCore with positive fuel returns at least one
character. -/
theorem toDigitsCore_succ_ne_nil (b f n : Nat) (ds : List Char) :
    Nat.toDigitsCore b (f + 1) n ds ≠ [] := by
  simp only [Nat.toDigitsCore]
  split
  · simp
  · intro h
    have hle := toDigitsCore_length_le b f (n / b) (Nat.digitChar (n % b) :: ds)
    rw [h] at hle
    simp at hle

/-- Helper: the decimal representation of a natural number is never
the empty string. -/
theorem natRepr_ne_empty (n : Nat) : Nat.repr n ≠ "" := by
  intro h
  have hdata := congrArg String.data h
  have hnil : Nat.toDigits 10 n = [] := by
    simpa [Nat.repr, Nat.toDigits, List.asString] using hdata
  exact toDigitsCore_succ_ne_nil 10 n n [] hnil

/-- Helper: str of a Python integer is never the empty string. -/
theorem intToString_ne_empty : ∀ (i : Int), toString i ≠ ""
  | Int.ofNat m => by
    show Nat.repr m ≠ ""
    exact natRepr_ne_empty m
  | Int.negSucc m => by
    show "-" ++ toString (m + 1) ≠ ""
    intro h
    have hdata := congrArg String.data h
    simp [String.data_append] at hdata

/-- C2 counterexample: with the seat numbers listed in the order
[3, 1, 2] and no reservations, the code assigns seat "3" (the first
listed free seat) although the lowest-numbered free seat is 1, so the
claim that the booking assigns the lowest-numbered free seat fails. -/
theorem C2_counterexample :
    resolveSpaceNo
        [⟨some 3, none⟩, ⟨some 1, none⟩, ⟨some 2, none⟩] [] none
      = SeatOutcome.commit "3"
    ∧ (availableSeats
        [⟨some 3, none⟩, ⟨some 1, none⟩, ⟨some 2, none⟩] []).min? = some 1
    ∧ ("3" : String) ≠ "1" := by
  exact ⟨by decide, by decide, by decide⟩

/-- C2 (amended): the booking assigns the first free seat in
space_details listing order, which is the lowest-numbered free seat
whenever the listing is ascending; when the space has seats but none
is free it fails with the seat-full error, and when the space has no
configured seat numbering (and the request supplies no override) it
fails with the no-valid-seat error. -/
theorem C2_theorem (details : List SpaceDetail)
    (reservations : List LessonReservation) (s : Int) :
    ((availableSeats details reservations).head? = some s →
      resolveSpaceNo details reservations none = SeatOutcome.commit (toString s)
      ∧ (List.Sorted (· ≤ ·) (allSeats details) →
          ∀ x ∈ availableSeats details reservations, s ≤ x))
    ∧ (allSeats details ≠ [] → availableSeats details reservations = [] →
        resolveSpaceNo details reservations none = SeatOutcome.seatFull)
    ∧ (allSeats details = [] →
        resolveSpaceNo details reservations none = SeatOutcome.spaceNoMissing) := by
  refine ⟨?_, ?_, ?_⟩
  · intro hhead
    cases havail : availableSeats details reservations with
    | nil => rw [havail] at hhead; simp at hhead
    | cons a t =>
      rw [havail] at hhead
      have heq : a = s := by simpa using hhead
      subst heq
      have hall : (allSeats details).isEmpty = false := by
        cases hseats : allSeats details with
        | nil =>
          have hav : availableSeats details reservations = [] := by
            simp [availableSeats, hseats]
          rw [hav] at havail
          exact absurd havail (by simp)
        | cons b u => simp
      refine ⟨?_, ?_⟩
      · have hne : (toString a == "") = false :=
          beq_eq_false_iff_ne.mpr (intToString_ne_empty a)
        simp only [resolveSpaceNo, havail, hall]
        simp [hne]
      · intro hsorted x hx
        have hsa : List.Sorted (· ≤ ·) (a :: t) := by
          have hf := hsorted.filter
            (fun y => !((reservedSeats reservations).contains y))
          have hav : (allSeats details).filter
              (fun y => !((reservedSeats reservations).contains y)) = a :: t := by
            rw [← havail]; rfl
          rw [hav] at hf
          exact hf
        rcases List.mem_cons.mp hx with h | h
        · exact le_of_eq h.symm
        · exact List.rel_of_sorted_cons hsa x h
  · intro hall havail
    have h1 : (allSeats details).isEmpty = false := by
      cases h : allSeats details with
      | nil => exact absurd h hall
      | cons b u => simp
    simp [resolveSpaceNo, havail, h1]
  · intro hall
    have havail : availableSeats details reservations = [] := by
      simp [availableSeats, hall]
    simp only [resolveSpaceNo, havail, hall]
    cases hfb : noLabelFallback details with
    | none => simp [hfb]
    | some l => simp [hfb]

/-- C2 witness: the seat pool {1,2,3} of Scenario D in listing order;
with seats 1 and 2 reserved the booking resolves seat "3"; with all
three reserved it fails seat-full; a space without seat numbering
fails with the no-valid-seat error. -/
theorem C2_witness :
    resolveSpaceNo [⟨some 1, none⟩, ⟨some 2, none⟩, ⟨some 3, none⟩]
        [⟨2, some 1⟩, ⟨2, some 2⟩] none = SeatOutcome.commit "3"
    ∧ resolveSpaceNo [⟨some 1, none⟩, ⟨some 2, none⟩, ⟨some 3, none⟩]
        [⟨2, some 1⟩, ⟨2, some 2⟩, ⟨3, some 3⟩] none = SeatOutcome.seatFull
    ∧ resolveSpaceNo [⟨none, some "A"⟩] [] none = SeatOutcome.spaceNoMissing := by
  refine ⟨?_, ?_, ?_⟩
  · exact ((C2_theorem [⟨some 1, none⟩, ⟨some 2, none⟩, ⟨some 3, none⟩]
      [⟨2, some 1⟩, ⟨2, some 2⟩] 3).1 (by decide)).1
  · exact (C2_theorem [⟨some 1, none⟩, ⟨some 2, none⟩, ⟨some 3, none⟩]
      [⟨2, some 1⟩, ⟨2, some 2⟩, ⟨3, some 3⟩] 0).2.1 (by decide) (by decide)
  · exact (C2_theorem [⟨none, some "A"⟩] [] 0).2.2 (by decide)

/-- C10: when the fixed-slot request body carries a truthy space_no,
the flow either fails seat-full (when the space has seats and none is
free, checked before the override) or reaches the commit with exactly
the client-supplied seat value; membership of that value in the
reserved-seat set is never consulted. -/
theorem C10_theorem (details : List SpaceDetail)
    (reservations : List LessonReservation) (s : String) (hs : s ≠ "") :
    resolveSpaceNo details reservations (some s) = SeatOutcome.seatFull
    ∨ resolveSpaceNo details reservations (some s) = SeatOutcome.commit s := by
  by_cases hfull : ((!(allSeats details).isEmpty
      && (availableSeats details reservations).isEmpty) = true)
  · left
    simp only [resolveSpaceNo]
    rw [if_pos hfull]
  · right
    simp only [resolveSpaceNo]
    rw [if_neg hfull]
    have hbeq : (s == "") = false := beq_eq_false_iff_ne.mpr hs
    simp [hs, hbeq]

/-- C10 witness: seat "1" is reserved for the lesson, yet a request
supplying space_no = "1" still reaches the commit with seat "1". -/
theorem C10_witness :
    (1 : Int) ∈ reservedSeats [⟨2, some 1⟩]
    ∧ (resolveSpaceNo [⟨some 1, none⟩, ⟨some 2, none⟩] [⟨2, some 1⟩] (some "1")
          = SeatOutcome.seatFull
        ∨ resolveSpaceNo [⟨some 1, none⟩, ⟨some 2, none⟩] [⟨2, some 1⟩] (some "1")
          = SeatOutcome.commit "1") := by
  exact ⟨by decide,
    C10_theorem [⟨some 1, none⟩, ⟨some 2, none⟩] [⟨2, some 1⟩] "1" (by decide)⟩

/-! Free-slot availability resolution: the instructor-selection part of
create_choice_reservation (app.py 3660-3827) and the
available-instructors lookup endpoint get_available_instructors
(app.py 2420-2478).  Timestamps are integer seconds after the timezone
normalisation done by the source; entries whose start or end string is
empty or unparsable are modelled with Option none and skipped exactly
as the source skips them. -/

/-- str.upper over the character-list string model (app.py 2443 and
3749). -/
def pyUpper (s : List Char) : List Char := s.map Char.toUpper

/-- One entry of reservation_assign_instructor, possibly merged with a
shift-slot block (app.py 3696-3722). -/
structure ReservedEntry where
  entity_id : Int
  start_at : Option Int
  end_at : Option Int
  reservation_type : List Char
deriving Repr, DecidableEq

/-- One entry of shift_instructor (app.py 3696). -/
structure ShiftInstructor where
  instructor_id : Int
  start_at : Option Int
  end_at : Option Int
deriving Repr, DecidableEq

/-- The reservation types treated as hard blocks in
create_choice_reservation (app.py 3750). -/
def CHOICE_BLOCK_TYPES : List (List Char) :=
  ["BREAK".data, "BLOCK".data, "REST".data, "SHIFT_SLOT".data,
    "休憩".data, "ブロック".data]

/-- is_block (app.py 3749-3750): uppercase the reservation type and
test membership in the block-type list. -/
def isBlockEntry (e : ReservedEntry) : Bool :=
  CHOICE_BLOCK_TYPES.contains (pyUpper e.reservation_type)

/-- reserved_instructor_ids of create_choice_reservation (app.py
3737-3768): block entries keep their own interval; reservation entries
are widened to [start − before_interval, end + after_interval); an
entry blocks its entity when the requested window
[start_datetime, proposed_end) overlaps the block interval. -/
def choiceReservedIds (reserved : List ReservedEntry)
    (before_interval after_interval start_datetime proposed_end : Int) : List Int :=
  reserved.filterMap (fun e =>
    match e.start_at, e.end_at with
    | some reserved_start, some reserved_end =>
      let block :=
        if isBlockEntry e then (reserved_start, reserved_end)
        else (reserved_start - before_interval, reserved_end + after_interval)
      if start_datetime < block.2 ∧ proposed_end > block.1 then some e.entity_id
      else none
    | _, _ => none)

/-- The per-instructor body of the availability loop of
create_choice_reservation (app.py 3770-3803): skip instructors outside
the program allow-list, skip instructors bound to other studios, then
keep the instructor when the shift fully contains the requested window
and the instructor is not in the reserved set. -/
def choiceShiftFilter (selectable_instructor_ids : Option (List Int))
    (instructor_studio_map : List (Int × List Int)) (studio_id : Option Int)
    (reservedIds : List Int) (start_datetime proposed_end : Int)
    (ins : ShiftInstructor) : Option Int :=
  let iid := ins.instructor_id
  let notSelectable : Bool :=
    match selectable_instructor_ids with
    | some ids => !ids.contains iid
    | none => false
  if notSelectable then none
  else
    let instructor_studio_ids := (instructor_studio_map.lookup iid).getD []
    let skipStudio : Bool :=
      !instructor_studio_ids.isEmpty &&
        match studio_id with
        | some sid => sid != 0 && !instructor_studio_ids.contains sid
        | none => false
    if skipStudio then none
    else
      match ins.start_at, ins.end_at with
      | some instructor_start, some instructor_end =>
        if instructor_start ≤ start_datetime ∧ proposed_end ≤ instructor_end
            ∧ iid ∉ reservedIds then
          some iid
        else none
      | _, _ => none

/-- available_instructors of create_choice_reservation (app.py
3771-3803), in shift listing order. -/
def choiceAvailableInstructors (shifts : List ShiftInstructor)
    (selectable_instructor_ids : Option (List Int))
    (instructor_studio_map : List (Int × List Int)) (studio_id : Option Int)
    (reservedIds : List Int) (start_datetime proposed_end : Int) : List Int :=
  shifts.filterMap (choiceShiftFilter selectable_instructor_ids
    instructor_studio_map studio_id reservedIds start_datetime proposed_end)

/-- The staff candidate assigned by the booking: the first available
instructor, available_instructors[:1] (app.py 3805-3806). -/
def choiceAssignedInstructor (shifts : List ShiftInstructor)
    (selectable_instructor_ids : Option (List Int))
    (instructor_studio_map : List (Int × List Int)) (studio_id : Option Int)
    (reserved : List ReservedEntry)
    (before_interval after_interval start_datetime proposed_end : Int) : Option Int :=
  (choiceAvailableInstructors shifts selectable_instructor_ids
    instructor_studio_map studio_id
    (choiceReservedIds reserved before_interval after_interval
      start_datetime proposed_end)
    start_datetime proposed_end).head?

/-- reserved_instructor_ids of get_available_instructors (app.py
2432-2449): every entry whose interval overlaps the requested window
blocks its entity (no widening; the is_block flag computed there is
unused). -/
def lookupReservedIds (reserved : List ReservedEntry)
    (start_datetime end_datetime : Int) : List Int :=
  reserved.filterMap (fun e =>
    match e.start_at, e.end_at with
    | some reserved_start, some reserved_end =>
      if start_datetime < reserved_end ∧ end_datetime > reserved_start then
        some e.entity_id
      else none
    | _, _ => none)

/-- The per-instructor body of the availability loop of
get_available_instructors (app.py 2452-2473): keep the instructor when
the shift contains the start instant only. -/
def lookupShiftFilter (reservedIds : List Int) (start_datetime : Int)
    (ins : ShiftInstructor) : Option Int :=
  match ins.start_at, ins.end_at with
  | some instructor_start, some instructor_end =>
    if instructor_start ≤ start_datetime ∧ start_datetime < instructor_end
        ∧ ins.instructor_id ∉ reservedIds then
      some ins.instructor_id
    else none
  | _, _ => none

/-- available_instructors of get_available_instructors (app.py
2451-2473). -/
def lookupAvailableInstructors (shifts : List ShiftInstructor)
    (reservedIds : List Int) (start_datetime : Int) : List Int :=
  shifts.filterMap (lookupShiftFilter reservedIds start_datetime)

/-- The overlap notion stated by claim C3: the buffer-widened request
window [start − bufferBefore, start + duration + bufferAfter) meets
the raw blocked interval. -/
def claimBufferWindowOverlaps (start_datetime duration before_interval
    after_interval block_start block_end : Int) : Prop :=
  start_datetime - before_interval < block_end
    ∧ block_start < start_datetime + duration + after_interval

/-- Helper: an instructor kept by the choice filter comes with a shift
containing the window and is not in the reserved set. -/
theorem choiceShiftFilter_some (selectable : Option (List Int))
    (smap : List (Int × List Int)) (studio_id : Option Int)
    (rids : List Int) (sd pe : Int) (ins : ShiftInstructor) (i : Int)
    (hf : choiceShiftFilter selectable smap studio_id rids sd pe ins = some i) :
    ins.instructor_id = i
    ∧ (∃ a b, ins.start_at = some a ∧ ins.end_at = some b ∧ a ≤ sd ∧ pe ≤ b)
    ∧ i ∉ rids := by
  dsimp only [choiceShiftFilter] at hf
  split at hf
  · exact absurd hf (by simp)
  · split at hf
    · exact absurd hf (by simp)
    · split at hf
      next a b heq1 heq2 =>
        split at hf
        next hcond =>
          obtain rfl : ins.instructor_id = i := by injection hf
          exact ⟨rfl, ⟨a, b, heq1, heq2, hcond.1, hcond.2.1⟩, hcond.2.2⟩
        next => exact absurd hf (by simp)
      next => exact absurd hf (by simp)

/-- Helper: an entry of the reserved list whose (per-kind, possibly
widened) block interval overlaps the requested window puts its entity
id into choiceReservedIds. -/
theorem mem_choiceReservedIds (reserved : List ReservedEntry)
    (bi ai sd pe : Int) (e : ReservedEntry) (rs re : Int)
    (he : e ∈ reserved) (hrs : e.start_at = some rs) (hre : e.end_at = some re)
    (hov : sd < (if isBlockEntry e then (rs, re)
        else (rs - bi, re + ai)).2
      ∧ pe > (if isBlockEntry e then (rs, re)
        else (rs - bi, re + ai)).1) :
    e.entity_id ∈ choiceReservedIds reserved bi ai sd pe := by
  refine List.mem_filterMap.mpr ⟨e, he, ?_⟩
  rw [hrs, hre]
  simp only [if_pos hov]

/-- C3 counterexample: program buffers before=10, after=0, duration 30,
request start 200 (proposed end 230); a reservation-kind blocked
interval [100, 200) exists for instructor 1, whose buffer-widened
request window [190, 230) overlaps that interval, yet the booking
still assigns instructor 1 because the source widens the block to
[90, 200) instead and 200 < 200 fails. -/
theorem C3_counterexample :
    choiceAssignedInstructor [⟨1, some 0, some 1000⟩] none [] none
        [⟨1, some 100, some 200, "".data⟩] 10 0 200 230 = some 1
    ∧ claimBufferWindowOverlaps 200 30 10 0 100 200
    ∧ isBlockEntry ⟨1, some 100, some 200, "".data⟩ = false := by
  refine ⟨by decide, ?_, by decide⟩
  constructor
  · decide
  · decide

/-- C3 (amended): for the staff candidate assigned by a free-slot
booking, no break or shift-slot block with that candidate overlaps the
unwidened request window [start, start + duration), and no
reservation-kind blocked interval, itself widened to
[block.start − bufferBefore, block.end + bufferAfter), overlaps the
unwidened request window — equivalently, the window
[start − bufferAfter, start + duration + bufferBefore) does not meet
the raw blocked interval (the source applies the buffers to the
existing block, not to the request). -/
theorem C3_theorem (shifts : List ShiftInstructor)
    (selectable : Option (List Int)) (smap : List (Int × List Int))
    (studio_id : Option Int) (reserved : List ReservedEntry)
    (bi ai sd pe i : Int)
    (hassigned : choiceAssignedInstructor shifts selectable smap studio_id
      reserved bi ai sd pe = some i) :
    ∀ e ∈ reserved, ∀ rs re : Int,
      e.start_at = some rs → e.end_at = some re → e.entity_id = i →
      (isBlockEntry e = true → ¬(sd < re ∧ pe > rs))
      ∧ (isBlockEntry e = false → ¬(sd < re + ai ∧ pe > rs - bi)) := by
  intro e he rs re hrs hre hid
  have hnotres : i ∉ choiceReservedIds reserved bi ai sd pe := by
    unfold choiceAssignedInstructor at hassigned
    cases hav : choiceAvailableInstructors shifts selectable smap studio_id
        (choiceReservedIds reserved bi ai sd pe) sd pe with
    | nil => rw [hav] at hassigned; simp at hassigned
    | cons a t =>
      rw [hav] at hassigned
      have ha : a = i := by simpa using hassigned
      subst ha
      have hmem : a ∈ choiceAvailableInstructors shifts selectable smap studio_id
          (choiceReservedIds reserved bi ai sd pe) sd pe := by
        rw [hav]; exact List.mem_cons_self a t
      obtain ⟨ins, _, hf⟩ := List.mem_filterMap.mp hmem
      exact (choiceShiftFilter_some _ _ _ _ _ _ _ _ hf).2.2
  constructor
  · intro hblk hov
    refine hnotres ?_
    rw [← hid]
    refine mem_choiceReservedIds reserved bi ai sd pe e rs re he hrs hre ?_
    rw [if_pos (by exact hblk)]
    exact hov
  · intro hblk hov
    refine hnotres ?_
    rw [← hid]
    refine mem_choiceReservedIds reserved bi ai sd pe e rs re he hrs hre ?_
    rw [if_neg (by simp [hblk])]
    exact hov

/-- C3 witness: the counterexample scenario also witnesses the amended
property — the assigned instructor 1 has a reservation-kind block
[100, 200) and the source-side widened overlap test fails on it. -/
theorem C3_witness :
    ¬((200 : Int) < 200 + 0 ∧ (230 : Int) > 100 - 10) := by
  have h := C3_theorem [⟨1, some 0, some 1000⟩] none [] none
    [⟨1, some 100, some 200, "".data⟩] 10 0 200 230 1 (by decide)
    ⟨1, some 100, some 200, "".data⟩ (by decide) 100 200 rfl rfl rfl
  exact h.2 (by decide)

/-- C4 counterexample: the available-instructors lookup returns an
instructor whose shift [100, 130) contains the requested start 120 but
ends before the requested service of 30 minutes does (150 > 130), so
the window-containment claim fails on that path. -/
theorem C4_counterexample :
    1 ∈ lookupAvailableInstructors [⟨1, some 100, some 130⟩] [] 120
    ∧ ¬((120 : Int) + 30 ≤ 130) := by
  exact ⟨by decide, by decide⟩

/-- C4 (amended): every candidate returned by the free-slot booking
path has a shift window fully containing the requested service
(shift.start ≤ start and start + duration ≤ shift.end); the
available-instructors lookup guarantees only that the shift contains
the start instant (shift.start ≤ start < shift.end), not the end. -/
theorem C4_theorem (shifts : List ShiftInstructor)
    (selectable : Option (List Int)) (smap : List (Int × List Int))
    (studio_id : Option Int) (rids lrids : List Int) (sd pe ld : Int) :
    (∀ i ∈ choiceAvailableInstructors shifts selectable smap studio_id rids sd pe,
      ∃ ins ∈ shifts, ins.instructor_id = i
        ∧ ∃ a b, ins.start_at = some a ∧ ins.end_at = some b ∧ a ≤ sd ∧ pe ≤ b)
    ∧ (∀ i ∈ lookupAvailableInstructors shifts lrids ld,
      ∃ ins ∈ shifts, ins.instructor_id = i
        ∧ ∃ a b, ins.start_at = some a ∧ ins.end_at = some b ∧ a ≤ ld ∧ ld < b) := by
  constructor
  · intro i hi
    obtain ⟨ins, hins, hf⟩ := List.mem_filterMap.mp hi
    obtain ⟨hid, hwin, _⟩ := choiceShiftFilter_some _ _ _ _ _ _ _ _ hf
    exact ⟨ins, hins, hid, hwin⟩
  · intro i hi
    obtain ⟨ins, hins, hf⟩ := List.mem_filterMap.mp hi
    dsimp only [lookupShiftFilter] at hf
    split at hf
    next a b heq1 heq2 =>
      split at hf
      next hcond =>
        obtain rfl : ins.instructor_id = i := by injection hf
        exact ⟨ins, hins, rfl, a, b, heq1, heq2, hcond.1, hcond.2.1⟩
      next => exact absurd hf (by simp)
    next => exact absurd hf (by simp)

/-- C4 witness: concrete containment facts obtained from the theorem —
full containment for the booking path with shift [0, 1000) and window
[200, 230), and start-only containment for the lookup path with shift
[100, 130) and start 120. -/
theorem C4_witness :
    (∃ ins ∈ [ShiftInstructor.mk 1 (some 0) (some 1000)],
      ins.instructor_id = 1
        ∧ ∃ a b, ins.start_at = some a ∧ ins.end_at = some b ∧ a ≤ 200 ∧ 230 ≤ b)
    ∧ (∃ ins ∈ [ShiftInstructor.mk 1 (some 100) (some 130)],
      ins.instructor_id = 1
        ∧ ∃ a b, ins.start_at = some a ∧ ins.end_at = some b ∧ a ≤ 120 ∧ 120 < b) := by
  constructor
  · exact (C4_theorem [⟨1, some 0, some 1000⟩] none [] none [] [] 200 230 0).1
      1 (by decide)
  · exact (C4_theorem [⟨1, some 100, some 130⟩] none [] none [] [] 0 0 120).2
      1 (by decide)

/-! Master and snapshot cache fetch-failure policy (app.py 524-816).
Each getter is modelled on one cache entry: the cached value and its
timestamp are inputs, the upstream fetch is an Except-valued input,
and the TTL comparison (now - cached_time).total_seconds() < TTL is
integer arithmetic.  The cache-write on success is not observable in
the returned value and is omitted. -/

/-- STUDIOS_CACHE_TTL_SECONDS (app.py 89). -/
def STUDIOS_CACHE_TTL_SECONDS : Int := 600

/-- PROGRAMS_CACHE_TTL_SECONDS (app.py 94). -/
def PROGRAMS_CACHE_TTL_SECONDS : Int := 300

/-- STUDIO_ROOMS_CACHE_TTL_SECONDS (app.py 99). -/
def STUDIO_ROOMS_CACHE_TTL_SECONDS : Int := 300

/-- INSTRUCTOR_CACHE_TTL_SECONDS (app.py 78). -/
def INSTRUCTOR_CACHE_TTL_SECONDS : Int := 60

/-- RESOURCES_CACHE_TTL_SECONDS (app.py 83). -/
def RESOURCES_CACHE_TTL_SECONDS : Int := 300

/-- CHOICE_SCHEDULE_CACHE_TTL_SECONDS (app.py 104). -/
def CHOICE_SCHEDULE_CACHE_TTL_SECONDS : Int := 900

/-- The shared freshness test of every getter: both the cached value
and its timestamp exist and the age is below the TTL. -/
def cacheFreshHit {α : Type} (cachedVal : Option α) (cachedTime : Option Int)
    (now ttl : Int) : Option α :=
  match cachedVal, cachedTime with
  | some v, some t => if now - t < ttl then some v else none
  | _, _ => none

/-- get_cached_studios (app.py 633-656): fresh cache wins; otherwise
fetch; on fetch failure serve the stale cache if present, else return
the empty list. -/
def get_cached_studios {α : Type} (cachedVal : Option (List α))
    (cachedTime : Option Int) (now : Int)
    (upstream : Except Unit (List α)) : Except Unit (List α) :=
  match cacheFreshHit cachedVal cachedTime now STUDIOS_CACHE_TTL_SECONDS with
  | some v => .ok v
  | none =>
    match upstream with
    | .ok v => .ok v
    | .error _ =>
      match cachedVal with
      | some v => .ok v
      | none => .ok []

/-- get_cached_programs for one studio key (app.py 659-688): same
failure policy as the studio list, with the programs TTL. -/
def get_cached_programs {α : Type} (cachedVal : Option (List α))
    (cachedTime : Option Int) (now : Int)
    (upstream : Except Unit (List α)) : Except Unit (List α) :=
  match cacheFreshHit cachedVal cachedTime now PROGRAMS_CACHE_TTL_SECONDS with
  | some v => .ok v
  | none =>
    match upstream with
    | .ok v => .ok v
    | .error _ =>
      match cachedVal with
      | some v => .ok v
      | none => .ok []

/-- get_cached_studio_rooms for one studio key (app.py 758-787). -/
def get_cached_studio_rooms {α : Type} (cachedVal : Option (List α))
    (cachedTime : Option Int) (now : Int)
    (upstream : Except Unit (List α)) : Except Unit (List α) :=
  match cacheFreshHit cachedVal cachedTime now STUDIO_ROOMS_CACHE_TTL_SECONDS with
  | some v => .ok v
  | none =>
    match upstream with
    | .ok v => .ok v
    | .error _ =>
      match cachedVal with
      | some v => .ok v
      | none => .ok []

/-- get_cached_resources for one studio key (app.py 572-630); the
resources map is modelled as an association list, and the failure path
returns the empty map built before the fetch. -/
def get_cached_resources {α : Type} (cachedVal : Option (List α))
    (cachedTime : Option Int) (now : Int)
    (upstream : Except Unit (List α)) : Except Unit (List α) :=
  match cacheFreshHit cachedVal cachedTime now RESOURCES_CACHE_TTL_SECONDS with
  | some v => .ok v
  | none =>
    match upstream with
    | .ok v => .ok v
    | .error _ =>
      match cachedVal with
      | some v => .ok v
      | none => .ok []

/-- The first successful attempt of a bounded retry loop
(app.py 544-562). -/
def firstSuccess {α : Type} : List (Except Unit α) → Option α
  | [] => none
  | .ok v :: _ => some v
  | .error _ :: rest => firstSuccess rest

/-- get_cached_instructor_studio_map (app.py 524-569): fresh cache
wins; otherwise up to three fetch attempts; when all fail, serve the
stale cache if present, else return the empty map. -/
def get_cached_instructor_studio_map {α : Type} (cachedVal : Option (List α))
    (cachedTime : Option Int) (now : Int)
    (attempts : List (Except Unit (List α))) : Except Unit (List α) :=
  match cacheFreshHit cachedVal cachedTime now INSTRUCTOR_CACHE_TTL_SECONDS with
  | some v => .ok v
  | none =>
    match firstSuccess attempts with
    | some v => .ok v
    | none =>
      match cachedVal with
      | some v => .ok v
      | none => .ok []

/-- get_cached_choice_schedule for one (room, date) key (app.py
790-816): fresh cache wins; otherwise fetch; on fetch failure serve
the stale cache if present, else re-raise the failure. -/
def get_cached_choice_schedule {α : Type} (cachedVal : Option α)
    (cachedTime : Option Int) (now : Int)
    (upstream : Except Unit α) : Except Unit α :=
  match cacheFreshHit cachedVal cachedTime now CHOICE_SCHEDULE_CACHE_TTL_SECONDS with
  | some v => .ok v
  | none =>
    match upstream with
    | .ok v => .ok v
    | .error e =>
      match cachedVal with
      | some v => .ok v
      | none => .error e

/-- Helper: a fresh cache hit can only return the cached value. -/
theorem cacheFreshHit_some {α : Type} {cv : Option α} {ct : Option Int}
    {now ttl : Int} {v : α} (h : cacheFreshHit cv ct now ttl = some v) :
    cv = some v := by
  cases cv with
  | none => simp [cacheFreshHit] at h
  | some w =>
    cases ct with
    | none => simp [cacheFreshHit] at h
    | some t =>
      simp only [cacheFreshHit] at h
      split at h
      · exact h
      · exact absurd h (by simp)

/-- C7 counterexample: the studio-list getter with an empty cache and
a failing upstream returns the empty list instead of propagating the
failure, refuting the claim that every cache scope propagates. -/
theorem C7_counterexample :
    get_cached_studios (α := Unit) none none 0 (Except.error ()) = Except.ok []
    ∧ get_cached_studios (α := Unit) none none 0 (Except.error ())
        ≠ Except.error () := by
  exact ⟨rfl, fun h => nomatch h⟩

/-- C7 (amended): on upstream failure every cache scope serves the
last successfully cached value when one is present; with no cached
value, only the schedule-snapshot getter propagates the failure, while
the studio-list, program-list, room-list, staff-location-map and
resources getters return an empty collection instead. -/
theorem C7_theorem {α : Type} (lv : List α) (v : α) (ct : Option Int)
    (now : Int) (e : Unit) (attempts : List (Except Unit (List α)))
    (hfail : firstSuccess attempts = none) :
    get_cached_studios (some lv) ct now (Except.error e) = Except.ok lv
    ∧ get_cached_programs (some lv) ct now (Except.error e) = Except.ok lv
    ∧ get_cached_studio_rooms (some lv) ct now (Except.error e) = Except.ok lv
    ∧ get_cached_resources (some lv) ct now (Except.error e) = Except.ok lv
    ∧ get_cached_instructor_studio_map (some lv) ct now attempts = Except.ok lv
    ∧ get_cached_choice_schedule (some v) ct now (Except.error e) = Except.ok v
    ∧ get_cached_choice_schedule (α := α) none ct now (Except.error e)
        = Except.error e
    ∧ get_cached_studios (α := α) none ct now (Except.error e) = Except.ok []
    ∧ get_cached_programs (α := α) none ct now (Except.error e) = Except.ok []
    ∧ get_cached_studio_rooms (α := α) none ct now (Except.error e) = Except.ok []
    ∧ get_cached_resources (α := α) none ct now (Except.error e) = Except.ok []
    ∧ get_cached_instructor_studio_map (α := α) none ct now attempts
        = Except.ok [] := by
  refine ⟨?_, ?_, ?_, ?_, ?_, ?_, ?_, ?_, ?_, ?_, ?_, ?_⟩
  · unfold get_cached_studios
    cases hfh : cacheFreshHit (some lv) ct now STUDIOS_CACHE_TTL_SECONDS with
    | some w => obtain rfl : lv = w := Option.some.inj (cacheFreshHit_some hfh); rfl
    | none => rfl
  · unfold get_cached_programs
    cases hfh : cacheFreshHit (some lv) ct now PROGRAMS_CACHE_TTL_SECONDS with
    | some w => obtain rfl : lv = w := Option.some.inj (cacheFreshHit_some hfh); rfl
    | none => rfl
  · unfold get_cached_studio_rooms
    cases hfh : cacheFreshHit (some lv) ct now STUDIO_ROOMS_CACHE_TTL_SECONDS with
    | some w => obtain rfl : lv = w := Option.some.inj (cacheFreshHit_some hfh); rfl
    | none => rfl
  · unfold get_cached_resources
    cases hfh : cacheFreshHit (some lv) ct now RESOURCES_CACHE_TTL_SECONDS with
    | some w => obtain rfl : lv = w := Option.some.inj (cacheFreshHit_some hfh); rfl
    | none => rfl
  · unfold get_cached_instructor_studio_map
    cases hfh : cacheFreshHit (some lv) ct now INSTRUCTOR_CACHE_TTL_SECONDS with
    | some w => obtain rfl : lv = w := Option.some.inj (cacheFreshHit_some hfh); rfl
    | none => rw [hfail]
  · unfold get_cached_choice_schedule
    cases hfh : cacheFreshHit (some v) ct now CHOICE_SCHEDULE_CACHE_TTL_SECONDS with
    | some w => obtain rfl : v = w := Option.some.inj (cacheFreshHit_some hfh); rfl
    | none => rfl
  · unfold get_cached_choice_schedule
    cases ct <;> rfl
  · unfold get_cached_studios
    cases ct <;> rfl
  · unfold get_cached_programs
    cases ct <;> rfl
  · unfold get_cached_studio_rooms
    cases ct <;> rfl
  · unfold get_cached_resources
    cases ct <;> rfl
  · unfold get_cached_instructor_studio_map
    cases ct <;> rw [hfail] <;> rfl

/-- C7 witness: concrete instances — a stale studio list [()] is
served on failure, a missing schedule propagates the error, and a
missing studio list yields the empty list, with one failed retry
attempt for the staff-location map. -/
theorem C7_witness :
    get_cached_studios (some [()]) (some 0) 10000 (Except.error ())
        = Except.ok [()]
    ∧ get_cached_choice_schedule (α := List Unit) none none 0 (Except.error ())
        = Except.error ()
    ∧ get_cached_instructor_studio_map (α := Unit) none none 0 [Except.error ()]
        = Except.ok [] := by
  have h := C7_theorem (α := Unit) [()] () (some 0) 10000 ()
    [Except.error ()] (by rfl)
  refine ⟨h.1, ?_, ?_⟩
  · have h2 := C7_theorem (α := List Unit) [] [] none 0 () [] (by rfl)
    exact h2.2.2.2.2.2.2.1
  · have h3 := C7_theorem (α := Unit) [] () none 0 () [Except.error ()] (by rfl)
    exact h3.2.2.2.2.2.2.2.2.2.2.2

/-! Booking endpoint prefixes: required-field validation and the
lead-time/horizon range check, with the booking-system adapter calls
made before each outcome (create_reservation, app.py 2828-2867, and
create_choice_reservation, app.py 3473-3507).  get_hacomono_client
only constructs the client object from the environment and performs no
HTTP request, so it contributes no adapter call. -/

/-- An upstream call to the booking-system adapter. -/
inductive AdapterCall where
  | getStudioLesson (id : Int)
  | getMember (id : Int)
  | cancelReservation (argCount : Nat)
deriving Repr, DecidableEq

/-- Python truthiness of an optional integer field. -/
def fieldPresentI : Option Int → Bool
  | some n => n != 0
  | none => false

/-- Python truthiness of an optional string field. -/
def fieldPresentS : Option String → Bool
  | some s => s != ""
  | none => false

/-- The request-body fields checked by create_reservation
(app.py 2836). -/
structure FixedRequest where
  studio_lesson_id : Option Int
  guest_name : Option String
  guest_email : Option String
  guest_phone : Option String

/-- The first missing required field of a fixed-slot booking, in the
order of the required_fields list (app.py 2836-2843). -/
def missingFixedField (req : FixedRequest) : Option String :=
  if !fieldPresentI req.studio_lesson_id then some "studio_lesson_id"
  else if !fieldPresentS req.guest_name then some "guest_name"
  else if !fieldPresentS req.guest_email then some "guest_email"
  else if !fieldPresentS req.guest_phone then some "guest_phone"
  else none

/-- Outcome of the validation-and-range prefix of a booking request:
the 400 VALIDATION_ERROR response, the 400 DATETIME_OUT_OF_RANGE
response carrying the validation message, or continuation into the
rest of the flow. -/
inductive BookingPhase0 where
  | validationError (fieldName : String)
  | rangeError (msg : String)
  | proceed
deriving Repr, DecidableEq

/-- The prefix of create_reservation up to the range check (app.py
2835-2867): missing fields are rejected with no adapter call;
otherwise the lesson is fetched from the adapter to learn its start,
and a start outside the window yields DATETIME_OUT_OF_RANGE: the
lessonFetch input carries the fetched start_at (none when absent) or
the fetch failure, which the source catches and ignores. -/
def fixedBookingStart (req : FixedRequest) (now : Int)
    (lessonFetch : Except Unit (Option Int)) :
    List AdapterCall × BookingPhase0 :=
  match missingFixedField req with
  | some f => ([], .validationError f)
  | none =>
    let calls := [AdapterCall.getStudioLesson (req.studio_lesson_id.getD 0)]
    match lessonFetch with
    | .error _ => (calls, .proceed)
    | .ok none => (calls, .proceed)
    | .ok (some lesson_start) =>
      let r := validate_reservation_datetime now lesson_start
      if r.1 then (calls, .proceed) else (calls, .rangeError r.2)

/-- The request-body fields checked by create_choice_reservation
(app.py 3481). -/
structure ChoiceRequest where
  studio_room_id : Option Int
  program_id : Option Int
  start_at : Option String
  guest_name : Option String
  guest_email : Option String
  guest_phone : Option String

/-- The first missing required field of a free-slot booking, in the
order of the required_fields list (app.py 3481-3484). -/
def missingChoiceField (req : ChoiceRequest) : Option String :=
  if !fieldPresentI req.studio_room_id then some "studio_room_id"
  else if !fieldPresentI req.program_id then some "program_id"
  else if !fieldPresentS req.start_at then some "start_at"
  else if !fieldPresentS req.guest_name then some "guest_name"
  else if !fieldPresentS req.guest_email then some "guest_email"
  else if !fieldPresentS req.guest_phone then some "guest_phone"
  else none

/-- The prefix of create_choice_reservation up to the range check
(app.py 3480-3507): missing fields are rejected with no adapter call;
then start_at is parsed (parsedStart is none when strptime raises, in
which case the source continues), and an in-range check failure yields
DATETIME_OUT_OF_RANGE, still with no adapter call. -/
def choiceBookingStart (req : ChoiceRequest) (now : Int)
    (parsedStart : Option Int) : List AdapterCall × BookingPhase0 :=
  match missingChoiceField req with
  | some f => ([], .validationError f)
  | none =>
    match parsedStart with
    | none => ([], .proceed)
    | some t =>
      let r := validate_reservation_datetime now t
      if r.1 then ([], .proceed) else ([], .rangeError r.2)

/-- C8 counterexample: a fixed-slot request with every required field
present whose lesson starts at the current instant (inside the
30-minute lead time) is rejected with DATETIME_OUT_OF_RANGE only
after the get_studio_lesson adapter call, so the claim that range
errors are returned without any adapter call fails. -/
theorem C8_counterexample :
    fixedBookingStart
        ⟨some 7, some "a", some "a@b.com", some "090"⟩ 0 (Except.ok (some 0))
      = ([AdapterCall.getStudioLesson 7],
          BookingPhase0.rangeError minLeadViolationMessage)
    ∧ (fixedBookingStart
        ⟨some 7, some "a", some "a@b.com", some "090"⟩ 0 (Except.ok (some 0))).1
      ≠ [] := by
  exact ⟨by decide, by decide⟩

/-- C8 (amended): required-field failures are rejected with no adapter
call on both booking paths, and the free-slot range failure is also
rejected with no adapter call; the fixed-slot range check, however,
first fetches the lesson from the adapter (exactly one call) and only
then rejects the out-of-range start. -/
theorem C8_theorem (freq : FixedRequest) (creq : ChoiceRequest)
    (now t : Int) (f : String) (lessonFetch : Except Unit (Option Int)) :
    (missingFixedField freq = some f →
      fixedBookingStart freq now lessonFetch
        = ([], BookingPhase0.validationError f))
    ∧ (missingChoiceField creq = some f →
      choiceBookingStart creq now t
        = ([], BookingPhase0.validationError f))
    ∧ (missingChoiceField creq = none →
      (validate_reservation_datetime now t).1 = false →
      choiceBookingStart creq now (some t)
        = ([], BookingPhase0.rangeError (validate_reservation_datetime now t).2))
    ∧ (missingFixedField freq = none →
      (validate_reservation_datetime now t).1 = false →
      fixedBookingStart freq now (Except.ok (some t))
        = ([AdapterCall.getStudioLesson (freq.studio_lesson_id.getD 0)],
            BookingPhase0.rangeError (validate_reservation_datetime now t).2)) := by
  refine ⟨?_, ?_, ?_, ?_⟩
  · intro hmiss
    unfold fixedBookingStart
    rw [hmiss]
  · intro hmiss
    unfold choiceBookingStart
    rw [hmiss]
  · intro hmiss hrange
    unfold choiceBookingStart
    rw [hmiss]
    simp [hrange]
  · intro hmiss hrange
    unfold fixedBookingStart
    rw [hmiss]
    simp [hrange]

/-- C8 witness: a fixed-slot request missing its email, a free-slot
request missing its program id, a free-slot request starting inside
the lead time, and the fixed-slot out-of-range case of the
counterexample scenario, each with the calls recorded. -/
theorem C8_witness :
    fixedBookingStart ⟨some 7, some "a", none, some "090"⟩ 0 (Except.error ())
      = ([], BookingPhase0.validationError "guest_email")
    ∧ choiceBookingStart ⟨some 3, none, some "2024-01-01 10:00:00.000",
        some "a", some "a@b.com", some "090"⟩ 0 (some 0)
      = ([], BookingPhase0.validationError "program_id")
    ∧ choiceBookingStart ⟨some 3, some 5, some "2024-01-01 10:00:00.000",
        some "a", some "a@b.com", some "090"⟩ 0 (some 0)
      = ([], BookingPhase0.rangeError minLeadViolationMessage)
    ∧ fixedBookingStart ⟨some 7, some "a", some "a@b.com", some "090"⟩ 0
        (Except.ok (some 0))
      = ([AdapterCall.getStudioLesson 7],
          BookingPhase0.rangeError minLeadViolationMessage) := by
  refine ⟨?_, ?_, ?_, ?_⟩
  · exact (C8_theorem ⟨some 7, some "a", none, some "090"⟩
      ⟨some 3, none, some "x", some "a", some "a@b.com", some "090"⟩
      0 0 "guest_email" (Except.error ())).1 (by decide)
  · exact (C8_theorem ⟨some 7, some "a", some "a@b.com", some "090"⟩
      ⟨some 3, none, some "2024-01-01 10:00:00.000",
        some "a", some "a@b.com", some "090"⟩
      0 0 "program_id" (Except.error ())).2.1 (by decide)
  · exact (C8_theorem ⟨some 7, some "a", some "a@b.com", some "090"⟩
      ⟨some 3, some 5, some "2024-01-01 10:00:00.000",
        some "a", some "a@b.com", some "090"⟩
      0 0 "x" (Except.error ())).2.2.1 (by decide) (by decide)
  · exact (C8_theorem ⟨some 7, some "a", some "a@b.com", some "090"⟩
      ⟨some 3, some 5, some "2024-01-01 10:00:00.000",
        some "a", some "a@b.com", some "090"⟩
      0 0 "x" (Except.ok (some 0))).2.2.2 (by decide) (by decide)

/-! Guest resolution (Scenario E): _create_guest_member
(app.py 2742-2825) and the inline member search of
create_choice_reservation (app.py 3527-3608). -/

/-- One member record of the members-list response. -/
structure Member where
  id : Option Int
  mail_address : Option String
deriving Repr, DecidableEq

/-- The search loop of _create_guest_member (app.py 2758-2765): the
first member whose mail_address equals the guest email. -/
def findMemberByEmail (memberList : List Member) (email : String) :
    Option Int :=
  match memberList.find? (fun m => m.mail_address == some email) with
  | some m => m.id
  | none => none

/-- The guest-resolution outcome of _create_guest_member
(app.py 2755-2813): the reused member id together with the flag
telling whether create_member was called.  A failed or non-matching
search leaves member_id falsy, and a falsy member_id triggers
creation. -/
def guestResolveFixed (search : Except Unit (List Member))
    (email : String) : Option Int × Bool :=
  let found : Option Int :=
    match search with
    | .ok lst => findMemberByEmail lst email
    | .error _ => none
  match found with
  | some i => if i != 0 then (some i, false) else (none, true)
  | none => (none, true)

/-- The guest-resolution outcome of create_choice_reservation
(app.py 3527-3550): the first member of the search result is taken
without an address comparison, and a falsy member_id triggers
creation (app.py 3550). -/
def guestResolveChoice (search : Except Unit (List Member)) :
    Option Int × Bool :=
  let found : Option Int :=
    match search with
    | .ok (m :: _) => m.id
    | _ => none
  match found with
  | some i => if i != 0 then (some i, false) else (none, true)
  | none => (none, true)

/-- C9: when the guest lookup by email returns an existing account (a
member with a real id — first matching the email exactly on the
fixed-slot path, first of the result list on the free-slot path), the
booking flow reuses that member id and does not call the member
creation operation. -/
theorem C9_theorem (lst : List Member) (rest : List Member) (m : Member)
    (email : String) (i : Int) (hi : i ≠ 0) :
    (findMemberByEmail lst email = some i →
      guestResolveFixed (Except.ok lst) email = (some i, false))
    ∧ (m.id = some i →
      guestResolveChoice (Except.ok (m :: rest)) = (some i, false)) := by
  have hne : (i != 0) = true := by simpa using hi
  constructor
  · intro hfind
    unfold guestResolveFixed
    dsimp only
    rw [hfind]
    simp [hne]
  · intro hid
    unfold guestResolveChoice
    dsimp only
    rw [hid]
    simp [hne]

/-- C9 witness: a search result holding member 42 with the matching
address is reused on both paths and neither path creates a member. -/
theorem C9_witness :
    guestResolveFixed
        (Except.ok [⟨some 42, some "a@b.com"⟩]) "a@b.com" = (some 42, false)
    ∧ guestResolveChoice
        (Except.ok [⟨some 42, some "a@b.com"⟩]) = (some 42, false) := by
  have h := C9_theorem [⟨some 42, some "a@b.com"⟩] []
    ⟨some 42, some "a@b.com"⟩ "a@b.com" 42 (by decide)
  exact ⟨h.1 (by decide), h.2 (by decide)⟩

/-! The cancel endpoint (app.py 4112-4167) and the adapter cancel
operation (hacomono_client.py 385-387).  The endpoint passes two
positional arguments, member_id and the one-element reservation-id
list, but the client method accepts only the reservation_ids list
after self; Python call binding with more positional arguments than
parameters raises TypeError, which the handle_errors decorator
(app.py 819-837) converts into the generic 500 internal-error
response. -/

/-- A Python positional value, as passed at app.py 4162. -/
inductive PyValue where
  | vint (i : Int)
  | vlist (l : List Int)
deriving Repr, DecidableEq

/-- The parameter list of HacomonoClient.cancel_reservation after
self (hacomono_client.py 385). -/
def cancelReservationParams : List String := ["reservation_ids"]

/-- The positional arguments after self in the call
client.cancel_reservation(member_id, [reservation_id])
(app.py 4162). -/
def cancelCallArgs (member_id reservation_id : Int) : List PyValue :=
  [.vint member_id, .vlist [reservation_id]]

/-- Python positional binding: a call whose positional argument count
differs from the parameter count raises TypeError. -/
def pyBindPositional (params : List String) (args : List PyValue) :
    Except String (List (String × PyValue)) :=
  if args.length == params.length then .ok (params.zip args)
  else .error "TypeError"

/-- The responses of the cancel endpoint (app.py 4112-4167):
400 for a missing field, 403 for a failed hash verification, 500 for
a failed member fetch, 500 from handle_errors for an uncaught
exception, 200 success. -/
inductive CancelResponse where
  | badRequest (err : String)
  | forbidden
  | verificationError
  | internalError
  | success
deriving Repr, DecidableEq

/-- cancel_reservation endpoint (app.py 4112-4167): validate the
member_id and verify fields, fetch the member, verify the hash of its
mail and phone, then invoke the adapter cancel operation through
Python call binding; the trace of adapter calls is returned with the
response. -/
def cancel_reservation_endpoint (sha256hex : List Char → List Char)
    (reservation_id : Int) (member_id : Option Int)
    (provided_verify : Option (List Char))
    (memberFetch : Except Unit (List Char × List Char)) :
    List AdapterCall × CancelResponse :=
  match member_id with
  | none => ([], .badRequest "member_id is required")
  | some mid =>
    if mid == 0 then ([], .badRequest "member_id is required")
    else
      match provided_verify with
      | none => ([], .badRequest "verify is required")
      | some pv =>
        if pv == [] then ([], .badRequest "verify is required")
        else
          let calls := [AdapterCall.getMember mid]
          match memberFetch with
          | .error _ => (calls, .verificationError)
          | .ok (member_email, member_phone) =>
            if !(verify_hash sha256hex member_email member_phone pv) then
              (calls, .forbidden)
            else
              let calls := calls
                ++ [AdapterCall.cancelReservation
                      (cancelCallArgs mid reservation_id).length]
              match pyBindPositional cancelReservationParams
                  (cancelCallArgs mid reservation_id) with
              | .error _ => (calls, .internalError)
              | .ok _ => (calls, .success)

/-- C1: the claim is the documented intent (the endpoint docstring at
app.py 4118 and the adapter contract both require member id plus
reservation-id list), but the client method accepts only the
reservation-id list, so every cancel request that passes the hash
verification ends in the 500 internal error instead of a success
response: the two-argument call never binds. -/
theorem C1_theorem (sha256hex : List Char → List Char)
    (reservation_id mid : Int) (mail phone : List Char)
    (hmid : mid ≠ 0)
    (hpv : generate_verification_hash sha256hex mail phone ≠ []) :
    cancel_reservation_endpoint sha256hex reservation_id (some mid)
        (some (generate_verification_hash sha256hex mail phone))
        (Except.ok (mail, phone))
      = ([AdapterCall.getMember mid, AdapterCall.cancelReservation 2],
          CancelResponse.internalError) := by
  have hmid2 : (mid == 0) = false := by simpa using hmid
  have hpv2 : (generate_verification_hash sha256hex mail phone == []) = false := by
    simpa using hpv
  have hver : verify_hash sha256hex mail phone
      (generate_verification_hash sha256hex mail phone) = true := by
    simp [verify_hash]
  unfold cancel_reservation_endpoint
  dsimp only
  simp only [hmid2, hpv2, hver, Bool.not_true, Bool.false_eq_true, if_false]
  rfl

/-- C1 witness: a concrete authorised cancel request (member 5, the
correct token for its stored contact data) reaches the internal-error
response with the failed two-argument adapter call recorded. -/
theorem C1_witness :
    cancel_reservation_endpoint (fun s => s) 123 (some 5)
        (some (generate_verification_hash (fun s => s)
          "a@b.com".data "09012345678".data))
        (Except.ok ("a@b.com".data, "09012345678".data))
      = ([AdapterCall.getMember 5, AdapterCall.cancelReservation 2],
          CancelResponse.internalError) := by
  exact C1_theorem (fun s => s) 123 5 "a@b.com".data "09012345678".data
    (by decide) (by decide)

end Happle
